import Mathlib

/-!
Verification of the LVGL C-array image converter
(src/lvgl_c_array_to_bin_and_image.py).

The development shallowly embeds the binary image codec of the converter:
the 32-bit header packing of create_binary_from_icon_data and
convert_image_array_file_to_bin, the header parser
parse_lvgl_binary_header, the per-format pixel decoders, the format
auto-detection dispatch of convert_lvgl_binary_to_png, and the ZMK
multi-icon extraction layer.  Byte strings are modelled as List Nat,
rasters as total functions from row and column to an RGBA quadruple.
-/

/-- An RGBA color value, one Nat per channel. -/
abbrev Pixel := Nat × Nat × Nat × Nat

/-- Indexing into a byte sequence.  Out-of-range reads return 0, which
models the numpy zero initialisation of the output array; every decoder
either guards its reads or is modelled with an explicit error value where
the Python code would raise IndexError. -/
def byteAt (l : List Nat) (i : Nat) : Nat := l.getD i 0

theorem byteAt_nil (i : Nat) : byteAt [] i = 0 := by
  cases i <;> rfl

theorem byteAt_cons_zero (a : Nat) (l : List Nat) : byteAt (a :: l) 0 = a := rfl

theorem byteAt_cons_succ (a : Nat) (l : List Nat) (i : Nat) :
    byteAt (a :: l) (i + 1) = byteAt l i := rfl

theorem byteAt_lt {l : List Nat} (h : ∀ b ∈ l, b < 256) (i : Nat) : byteAt l i < 256 := by
  induction l generalizing i with
  | nil => rw [byteAt_nil]; omega
  | cons a t ih =>
      cases i with
      | zero => exact h a (List.mem_cons_self a t)
      | succ j =>
          rw [byteAt_cons_succ]
          exact ih (fun b hb => h b (List.mem_cons_of_mem a hb)) j

theorem byteAt_drop (l : List Nat) (n k : Nat) : byteAt (l.drop n) k = byteAt l (n + k) := by
  induction n generalizing l with
  | zero => simp [List.drop]
  | succ m ih =>
      cases l with
      | nil => simp [byteAt_nil]
      | cons a t =>
          have : m + 1 + k = (m + k) + 1 := by omega
          rw [List.drop_succ_cons, ih t, this, byteAt_cons_succ]

theorem byteAt_take (l : List Nat) {n k : Nat} (h : k < n) :
    byteAt (l.take n) k = byteAt l k := by
  induction l generalizing n k with
  | nil => simp
  | cons a t ih =>
      cases n with
      | zero => omega
      | succ m =>
          cases k with
          | zero => rfl
          | succ j =>
              rw [List.take_succ_cons, byteAt_cons_succ, byteAt_cons_succ]
              exact ih (by omega)

theorem forall_lt_drop {l : List Nat} (n : Nat) (h : ∀ b ∈ l, b < 256) :
    ∀ b ∈ l.drop n, b < 256 := by
  intro b hb
  induction n generalizing l with
  | zero => exact h b hb
  | succ m ih =>
      cases l with
      | nil => simp at hb
      | cons a t =>
          rw [List.drop_succ_cons] at hb
          exact ih (fun c hc => h c (List.mem_cons_of_mem a hc)) hb

/-- Packing a value into the low bits of a word: when `a` fits below bit
`k`, the bitwise or with a shifted value is plain addition. -/
theorem lor_pack {a : Nat} (b : Nat) {k : Nat} (ha : a < 2 ^ k) :
    a ||| b <<< k = a + 2 ^ k * b := by
  rw [Nat.shiftLeft_eq, Nat.mul_comm b (2 ^ k), Nat.lor_comm,
    ← Nat.mul_add_lt_is_or ha b, Nat.add_comm]

/-! ## Header codec -/

/-- The 32-bit LVGL v8 header word as packed by create_binary_from_icon_data
(src lines 1072-1078) and convert_image_array_file_to_bin (src lines
224-230): bits 0-4 color format, bits 5-9 zero, bits 10-20 width masked to
11 bits, bits 21-31 height masked to 11 bits. -/
def lv_header_32bit (cf w h : Nat) : Nat :=
  (cf &&& 0x1F) ||| (0 <<< 5) ||| (0 <<< 8) ||| ((w &&& 0x7FF) <<< 10) ||| ((h &&& 0x7FF) <<< 21)

/-- Little-endian serialization of the header word into four bytes
(src lines 1088-1091 and 234-237). -/
def header_bytes (header_32bit : Nat) : List Nat :=
  [header_32bit &&& 0xFF, (header_32bit >>> 8) &&& 0xFF,
   (header_32bit >>> 16) &&& 0xFF, (header_32bit >>> 24) &&& 0xFF]

/-- Python int.from_bytes(bytes, little). -/
def int_from_bytes_le (l : List Nat) : Nat := l.foldr (fun b acc => b + 256 * acc) 0

/-- parse_lvgl_binary_header (src lines 255-315): reads the first four
bytes as a little-endian 32-bit word and extracts
(color_format, width, height); fewer than four bytes yield None.  The
warning prints of the Python code are I/O and carry no data. -/
def parse_lvgl_binary_header (binary_data : List Nat) : Option (Nat × Nat × Nat) :=
  if binary_data.length < 4 then none
  else
    let header := int_from_bytes_le (binary_data.take 4)
    some (header &&& 0x1F, (header >>> 10) &&& 0x7FF, (header >>> 21) &&& 0x7FF)

/-- An icon as produced by the ZMK extraction layer (a dict in the Python
code): name, declared width and height, declared format token, raw bytes. -/
structure IconData where
  name : String
  width : Nat
  height : Nat
  format : String
  data : List Nat
  deriving DecidableEq

/-- The format_map dictionary of create_binary_from_icon_data (src lines
1055-1062) together with its .get default of 7 (src line 1064). -/
def format_map (format : String) : Nat :=
  if format = "LV_IMG_CF_INDEXED_1BIT" then 7
  else if format = "LV_IMG_CF_INDEXED_2BIT" then 8
  else if format = "LV_IMG_CF_INDEXED_4BIT" then 9
  else if format = "LV_IMG_CF_INDEXED_8BIT" then 10
  else if format = "LV_IMG_CF_TRUE_COLOR" then 4
  else if format = "LV_IMG_CF_TRUE_COLOR_ALPHA" then 5
  else 7

/-- create_binary_from_icon_data (src lines 1050-1097): a four byte
little-endian header followed by the icon bytes. -/
def create_binary_from_icon_data (icon_data : IconData) : List Nat :=
  header_bytes (lv_header_32bit (format_map icon_data.format) icon_data.width icon_data.height)
    ++ icon_data.data

theorem format_map_lt_32 (s : String) : format_map s < 32 := by
  unfold format_map
  split_ifs <;> norm_num

theorem lv_header_32bit_eq (cf w h : Nat) :
    lv_header_32bit cf w h = cf % 32 + 1024 * (w % 2048) + 2097152 * (h % 2048) := by
  have e31 : (0x1F : Nat) = 2 ^ 5 - 1 := by norm_num
  have e2047 : (0x7FF : Nat) = 2 ^ 11 - 1 := by norm_num
  have h1 : cf % 2 ^ 5 < 2 ^ 10 := by
    have := Nat.mod_lt cf (y := 2 ^ 5) (by norm_num)
    omega
  have h2 : cf % 2 ^ 5 + 2 ^ 10 * (w % 2 ^ 11) < 2 ^ 21 := by
    have ha := Nat.mod_lt cf (y := 2 ^ 5) (by norm_num)
    have hb := Nat.mod_lt w (y := 2 ^ 11) (by norm_num)
    norm_num at ha hb ⊢
    omega
  unfold lv_header_32bit
  simp only [e31, e2047, Nat.and_pow_two_sub_one_eq_mod, Nat.zero_shiftLeft, Nat.or_zero]
  rw [lor_pack _ h1, lor_pack _ h2]
  norm_num

theorem int_from_bytes_le_header_bytes (x : Nat) :
    int_from_bytes_le (header_bytes x) = x % 4294967296 := by
  have e255 : (0xFF : Nat) = 2 ^ 8 - 1 := by norm_num
  simp only [header_bytes, int_from_bytes_le, List.foldr, e255,
    Nat.and_pow_two_sub_one_eq_mod, Nat.shiftRight_eq_div_pow]
  norm_num
  omega

theorem parse_header_bytes_append (cf w h : Nat) (rest : List Nat) (hcf : cf < 32) :
    parse_lvgl_binary_header (header_bytes (lv_header_32bit cf w h) ++ rest)
      = some (cf, w % 2048, h % 2048) := by
  have htake : (header_bytes (lv_header_32bit cf w h) ++ rest).take 4
      = header_bytes (lv_header_32bit cf w h) := rfl
  have hlen : ¬ (header_bytes (lv_header_32bit cf w h) ++ rest).length < 4 := by
    simp [header_bytes]
  have e31 : (0x1F : Nat) = 2 ^ 5 - 1 := by norm_num
  have e2047 : (0x7FF : Nat) = 2 ^ 11 - 1 := by norm_num
  unfold parse_lvgl_binary_header
  rw [if_neg hlen, htake, int_from_bytes_le_header_bytes, lv_header_32bit_eq]
  simp only [e31, e2047, Nat.and_pow_two_sub_one_eq_mod, Nat.shiftRight_eq_div_pow,
    Option.some.injEq, Prod.mk.injEq]
  norm_num
  refine ⟨?_, ?_, ?_⟩ <;> omega

/-- Claim C1: for each of the six encodable format tokens and any
width and height at most 2047, packing the header with
create_binary_from_icon_data and decoding the first four bytes with
parse_lvgl_binary_header returns exactly the packed format code, width
and height. -/
theorem header_roundtrip (nm s : String) (w h : Nat) (data : List Nat)
    (hs : s = "LV_IMG_CF_TRUE_COLOR" ∨ s = "LV_IMG_CF_TRUE_COLOR_ALPHA" ∨
      s = "LV_IMG_CF_INDEXED_1BIT" ∨ s = "LV_IMG_CF_INDEXED_2BIT" ∨
      s = "LV_IMG_CF_INDEXED_4BIT" ∨ s = "LV_IMG_CF_INDEXED_8BIT")
    (hw : w ≤ 2047) (hh : h ≤ 2047) :
    parse_lvgl_binary_header (create_binary_from_icon_data ⟨nm, w, h, s, data⟩)
      = some (format_map s, w, h) := by
  unfold create_binary_from_icon_data
  dsimp only
  rw [parse_header_bytes_append _ _ _ _ (format_map_lt_32 s),
    Nat.mod_eq_of_lt (by omega), Nat.mod_eq_of_lt (by omega)]

theorem header_roundtrip_witness :
    parse_lvgl_binary_header
      (create_binary_from_icon_data ⟨"cmd", 14, 14, "LV_IMG_CF_INDEXED_1BIT", [1, 2, 3]⟩)
      = some (7, 14, 14) :=
  header_roundtrip "cmd" "LV_IMG_CF_INDEXED_1BIT" 14 14 [1, 2, 3]
    (Or.inr (Or.inr (Or.inl rfl))) (by norm_num) (by norm_num)

/-- Claim C9: for oversized dimensions the header encoder raises no
error; the stored width and height fields are the inputs reduced modulo
2048 (the low 11 bits), exactly mirroring the source masking with 0x7FF. -/
theorem dimension_masking (nm s : String) (w h : Nat) (data : List Nat)
    (hbig : 2047 < w ∨ 2047 < h) :
    parse_lvgl_binary_header (create_binary_from_icon_data ⟨nm, w, h, s, data⟩)
      = some (format_map s, w % 2048, h % 2048) := by
  unfold create_binary_from_icon_data
  dsimp only
  exact parse_header_bytes_append _ _ _ _ (format_map_lt_32 s)

theorem dimension_masking_witness :
    parse_lvgl_binary_header
      (create_binary_from_icon_data ⟨"big", 2049, 3000, "LV_IMG_CF_TRUE_COLOR", []⟩)
      = some (4, 1, 952) :=
  dimension_masking "big" "LV_IMG_CF_TRUE_COLOR" 2049 3000 []
    (Or.inl (by norm_num))

/-! ## Pixel-format decoders

Each decoder mirrors one convert_*_to_png function of the source.  The
PNG writing, scaling and printing are I/O and are omitted; what remains is
the computation of the RGBA raster.  A raster is a total function from row
and column to a pixel; the Python loops write independent cells of a numpy
array initialised to zeros, so cell (y, x) is exactly the value computed
here.  Where the Python code returns False early the model returns an
error value, and where an unguarded list access would raise IndexError the
model returns a distinct error value. -/

inductive DecodeErr where
  | truncated
  | outOfBounds
  deriving DecidableEq

/-- The two-entry palette of convert_indexed_1bit_to_png_fixed (src lines
402-417): the four bytes of each entry are read in the order
(r, g, b, a). -/
def indexed1_palette (image_data : List Nat) : List Pixel :=
  [(byteAt image_data 0, byteAt image_data 1, byteAt image_data 2, byteAt image_data 3),
   (byteAt image_data 4, byteAt image_data 5, byteAt image_data 6, byteAt image_data 7)]

/-- The four-entry palette of convert_indexed_2bit_to_png (src lines
846-851): bytes in order b, g, r, a, appended as (r, g, b, a). -/
def indexed2_palette (image_data : List Nat) : List Pixel :=
  (List.range 4).map fun i =>
    (byteAt image_data (i * 4 + 2), byteAt image_data (i * 4 + 1),
     byteAt image_data (i * 4), byteAt image_data (i * 4 + 3))

/-- The sixteen-entry palette of convert_indexed_4bit_to_png (src lines
880-885): bytes in order b, g, r, a, appended as (r, g, b, a). -/
def indexed4_palette (image_data : List Nat) : List Pixel :=
  (List.range 16).map fun i =>
    (byteAt image_data (i * 4 + 2), byteAt image_data (i * 4 + 1),
     byteAt image_data (i * 4), byteAt image_data (i * 4 + 3))

/-- The 256-entry palette of convert_indexed_8bit_to_png (src lines
914-919): bytes in order b, g, r, a, appended as (r, g, b, a). -/
def indexed8_palette (image_data : List Nat) : List Pixel :=
  (List.range 256).map fun i =>
    (byteAt image_data (i * 4 + 2), byteAt image_data (i * 4 + 1),
     byteAt image_data (i * 4), byteAt image_data (i * 4 + 3))

/-- Palette decoding as section 4.2 of the specification describes it for
the indexed formats: each 4-byte entry is read in (B, G, R, A) byte order
and exposed as (R, G, B, A). -/
def spec_palette_bgra (payload : List Nat) (entries : Nat) : List Pixel :=
  (List.range entries).map fun i =>
    let entry := (payload.drop (4 * i)).take 4
    (byteAt entry 2, byteAt entry 1, byteAt entry 0, byteAt entry 3)

/-- Palette decoding with each 4-byte entry read directly in (R, G, B, A)
byte order, the order the Indexed1 decoder of the source actually uses. -/
def spec_palette_rgba (payload : List Nat) (entries : Nat) : List Pixel :=
  (List.range entries).map fun i =>
    let entry := (payload.drop (4 * i)).take 4
    (byteAt entry 0, byteAt entry 1, byteAt entry 2, byteAt entry 3)

/-- The row decoding loop of convert_indexed_1bit_to_png_fixed (src lines
434-465): each row occupies exactly two bitmap bytes, combined MSB-first
into a 16-bit word; pixel x of the row is bit 15 - x of that word.  A row
whose two bytes are not fully present is filled with palette entry 0. -/
def indexed1_raster (image_data : List Nat) : Nat → Nat → Pixel := fun y x =>
  let palette := indexed1_palette image_data
  let bitmap_data := image_data.drop 8
  let row_start := y * 2
  if row_start + 1 < bitmap_data.length then
    let byte1 := byteAt bitmap_data row_start
    let byte2 := byteAt bitmap_data (row_start + 1)
    let row_bits := (byte1 <<< 8) ||| byte2
    let bit_position := 15 - x
    let pixel_value := (row_bits >>> bit_position) &&& 1
    if pixel_value < palette.length then palette.getD pixel_value (0, 0, 0, 0)
    else palette.getD 0 (0, 0, 0, 0)
  else
    palette.getD 0 (0, 0, 0, 0)

/-- convert_indexed_1bit_to_png_fixed (src lines 385-489): fewer than
8 bytes of payload fail before the palette is read (src lines 398-400). -/
def convert_indexed_1bit_to_png_fixed (image_data : List Nat) (width height : Nat) :
    Except DecodeErr (Nat → Nat → Pixel) :=
  if image_data.length < 8 then .error .truncated
  else .ok (indexed1_raster image_data)

/-- The pixel loop of convert_indexed_2bit_to_png (src lines 853-866):
pixel_index counts pixels row-major, four 2-bit pixels per byte packed
MSB-first; a pixel whose bitmap byte is missing keeps the numpy zero
value (0, 0, 0, 0). -/
def indexed2_raster (image_data : List Nat) (width : Nat) : Nat → Nat → Pixel := fun y x =>
  let bitmap_data := image_data.drop 16
  let pixel_index := y * width + x
  let byte_index := pixel_index / 4
  let bit_shift := 6 - pixel_index % 4 * 2
  if byte_index < bitmap_data.length then
    (indexed2_palette image_data).getD ((byteAt bitmap_data byte_index >>> bit_shift) &&& 0x3)
      (0, 0, 0, 0)
  else (0, 0, 0, 0)

/-- convert_indexed_2bit_to_png (src lines 841-872): fewer than 16 bytes
of payload fail before the palette is read (src lines 843-844). -/
def convert_indexed_2bit_to_png (image_data : List Nat) (width height : Nat) :
    Except DecodeErr (Nat → Nat → Pixel) :=
  if image_data.length < 16 then .error .truncated
  else .ok (indexed2_raster image_data width)

/-- The pixel loop of convert_indexed_4bit_to_png (src lines 887-900):
two 4-bit pixels per byte, even pixel_index in the LOW nibble and odd
pixel_index in the high nibble; the bitmap access has no bounds guard in
the source. -/
def indexed4_raster (image_data : List Nat) (width : Nat) : Nat → Nat → Pixel := fun y x =>
  let bitmap_data := image_data.drop 64
  let pixel_index := y * width + x
  let byte_index := pixel_index / 2
  let pixel_value :=
    if pixel_index % 2 = 0 then byteAt bitmap_data byte_index &&& 0x0F
    else (byteAt bitmap_data byte_index >>> 4) &&& 0x0F
  (indexed4_palette image_data).getD pixel_value (0, 0, 0, 0)

/-- convert_indexed_4bit_to_png (src lines 875-906): fewer than 64 bytes
of payload fail first (src lines 877-878); otherwise the unguarded read
bitmap_data[byte_index] raises IndexError as soon as some pixel needs a
byte past the end, that is when the image is nonempty and the last pixel
index (width * height - 1) / 2 is outside the bitmap; the exception is
modelled as the outOfBounds error (it is caught by the caller of
convert_lvgl_binary_to_png, src lines 378-382). -/
def convert_indexed_4bit_to_png (image_data : List Nat) (width height : Nat) :
    Except DecodeErr (Nat → Nat → Pixel) :=
  if image_data.length < 64 then .error .truncated
  else if width * height ≠ 0 ∧ (image_data.drop 64).length ≤ (width * height - 1) / 2 then
    .error .outOfBounds
  else .ok (indexed4_raster image_data width)

/-- The pixel loop of convert_indexed_8bit_to_png (src lines 921-929):
one byte per pixel, row-major; a pixel whose byte is missing keeps the
numpy zero value (0, 0, 0, 0). -/
def indexed8_raster (image_data : List Nat) (width : Nat) : Nat → Nat → Pixel := fun y x =>
  let bitmap_data := image_data.drop 1024
  let pixel_index := y * width + x
  if pixel_index < bitmap_data.length then
    (indexed8_palette image_data).getD (byteAt bitmap_data pixel_index) (0, 0, 0, 0)
  else (0, 0, 0, 0)

/-- convert_indexed_8bit_to_png (src lines 909-935): fewer than 1024
bytes of payload fail before the palette is read (src lines 910-912). -/
def convert_indexed_8bit_to_png (image_data : List Nat) (width height : Nat) :
    Except DecodeErr (Nat → Nat → Pixel) :=
  if image_data.length < 1024 then .error .truncated
  else .ok (indexed8_raster image_data width)

/-- The pixel loop of convert_true_color_alpha_to_png_fixed (src lines
1030-1040): straight 4-byte (r, g, b, a) copy, row-major; a pixel whose
four bytes are not fully present keeps the numpy zero value. -/
def true_color_alpha_raster (image_data : List Nat) (width : Nat) : Nat → Nat → Pixel :=
  fun y x =>
    let pixel_index := (y * width + x) * 4
    if pixel_index + 3 < image_data.length then
      (byteAt image_data pixel_index, byteAt image_data (pixel_index + 1),
       byteAt image_data (pixel_index + 2), byteAt image_data (pixel_index + 3))
    else (0, 0, 0, 0)

/-- convert_true_color_alpha_to_png_fixed (src lines 1020-1047): a payload
shorter than width * height * 4 bytes prints an error and returns False
before any pixel is decoded (src lines 1026-1028). -/
def convert_true_color_alpha_to_png_fixed (image_data : List Nat) (width height : Nat) :
    Except DecodeErr (Nat → Nat → Pixel) :=
  if image_data.length < width * height * 4 then .error .truncated
  else .ok (true_color_alpha_raster image_data width)

/-- Reads pixel (row y, column x) out of a decode result; a failed decode
has no raster, which is reported as the zero pixel. -/
def raster_pixel (r : Except DecodeErr (Nat → Nat → Pixel)) (y x : Nat) : Pixel :=
  match r with
  | .ok f => f y x
  | .error _ => (0, 0, 0, 0)

/-- The bitmap addressing the specification claims for the 1-bit format:
flat bit index i, MSB-first within each byte. -/
def spec_bit_at (bytes : List Nat) (i : Nat) : Nat :=
  (byteAt bytes (i / 8) >>> (7 - i % 8)) &&& 1

/-! ## Bit addressing of the fixed two-byte rows -/

theorem row_bits_hi (b1 b2 x : Nat) (hb2 : b2 < 256) (hx : x < 8) :
    ((b1 <<< 8 ||| b2) >>> (15 - x)) &&& 1 = (b1 >>> (7 - x % 8)) &&& 1 := by
  have hor : b1 <<< 8 ||| b2 = b2 + 256 * b1 := by
    rw [Nat.lor_comm, lor_pack b1 (show b2 < 2 ^ 8 by omega)]
    norm_num
  rw [hor, Nat.and_one_is_mod, Nat.and_one_is_mod, Nat.shiftRight_eq_div_pow,
    Nat.shiftRight_eq_div_pow]
  interval_cases x <;> norm_num <;> omega

theorem row_bits_lo (b1 b2 x : Nat) (hb2 : b2 < 256) (hx1 : 8 ≤ x) (hx2 : x < 16) :
    ((b1 <<< 8 ||| b2) >>> (15 - x)) &&& 1 = (b2 >>> (7 - x % 8)) &&& 1 := by
  have hor : b1 <<< 8 ||| b2 = b2 + 256 * b1 := by
    rw [Nat.lor_comm, lor_pack b1 (show b2 < 2 ^ 8 by omega)]
    norm_num
  rw [hor, Nat.and_one_is_mod, Nat.and_one_is_mod, Nat.shiftRight_eq_div_pow,
    Nat.shiftRight_eq_div_pow]
  interval_cases x <;> norm_num <;> omega

/-! ## Claim C3: Indexed1 bitmap addressing -/

/-- Claim C3 is false as stated: with width 8 the claimed flat bit index
y * width + x for pixel (0, 1) addresses bit 8 of the bitmap, whose value
is 1 (the second bitmap byte is 0xFF), so the claim predicts the
foreground color (0, 0, 0, 255); the decoder instead reads the fixed
two-byte row y = 1 (bitmap bytes 2 and 3, both zero) and yields the
background color. -/
theorem indexed1_row_stride_counterexample :
    raster_pixel (convert_indexed_1bit_to_png_fixed
        [255, 255, 255, 255, 0, 0, 0, 255, 0x00, 0xFF, 0x00, 0x00] 8 2) 1 0
      = (255, 255, 255, 255)
    ∧ (indexed1_palette [255, 255, 255, 255, 0, 0, 0, 255, 0x00, 0xFF, 0x00, 0x00]).getD
        (spec_bit_at ([255, 255, 255, 255, 0, 0, 0, 255, 0x00, 0xFF, 0x00, 0x00].drop 8)
          (1 * 8 + 0)) (0, 0, 0, 0)
      = (0, 0, 0, 255)
    ∧ ((255, 255, 255, 255) : Pixel) ≠ (0, 0, 0, 255) :=
  ⟨by decide, by decide, by decide⟩

/-- Claim C3 (amended): the Indexed1 decoder reads every row from a fixed
two bytes of the bitmap, so for width at most 16 the pixel (x, y) of a
fully present row comes from flat bit index y * 16 + x (MSB-first), not
y * width + x; rows are padded to the two-byte stride. -/
theorem indexed1_row_stride_amended (image_data : List Nat) (width height y x : Nat)
    (hbytes : ∀ b ∈ image_data, b < 256) (hlen : 8 ≤ image_data.length)
    (hx : x < width) (hwidth : width ≤ 16)
    (hrow : y * 2 + 1 < (image_data.drop 8).length) :
    raster_pixel (convert_indexed_1bit_to_png_fixed image_data width height) y x
      = (indexed1_palette image_data).getD (spec_bit_at (image_data.drop 8) (y * 16 + x))
          (0, 0, 0, 0) := by
  have hb : ∀ b ∈ image_data.drop 8, b < 256 := forall_lt_drop 8 hbytes
  have hb2 : byteAt (image_data.drop 8) (y * 2 + 1) < 256 := byteAt_lt hb _
  have hconv : convert_indexed_1bit_to_png_fixed image_data width height
      = .ok (indexed1_raster image_data) := by
    unfold convert_indexed_1bit_to_png_fixed
    rw [if_neg (by omega)]
  rw [hconv]
  show indexed1_raster image_data y x = _
  simp only [indexed1_raster]
  rw [if_pos hrow]
  have hpv : ((byteAt (image_data.drop 8) (y * 2) <<< 8 |||
      byteAt (image_data.drop 8) (y * 2 + 1)) >>> (15 - x)) &&& 1
      < (indexed1_palette image_data).length := by
    have h1 := Nat.and_le_right (n := (byteAt (image_data.drop 8) (y * 2) <<< 8 |||
      byteAt (image_data.drop 8) (y * 2 + 1)) >>> (15 - x)) (m := 1)
    simp only [indexed1_palette, List.length_cons, List.length_nil]
    omega
  rw [if_pos hpv]
  congr 1
  unfold spec_bit_at
  have hmod : (y * 16 + x) % 8 = x % 8 := by omega
  rcases Nat.lt_or_ge x 8 with hx8 | hx8
  · have hdiv : (y * 16 + x) / 8 = y * 2 := by omega
    rw [hdiv, hmod]
    exact row_bits_hi _ _ _ hb2 hx8
  · have hdiv : (y * 16 + x) / 8 = y * 2 + 1 := by omega
    rw [hdiv, hmod]
    exact row_bits_lo _ _ _ hb2 hx8 (by omega)

theorem indexed1_row_stride_amended_witness :
    raster_pixel (convert_indexed_1bit_to_png_fixed
        [255, 255, 255, 255, 0, 0, 0, 255, 0x18, 0x60] 14 1) 0 3
      = (indexed1_palette [255, 255, 255, 255, 0, 0, 0, 255, 0x18, 0x60]).getD
          (spec_bit_at ([255, 255, 255, 255, 0, 0, 0, 255, 0x18, 0x60].drop 8) (0 * 16 + 3))
          (0, 0, 0, 0) :=
  indexed1_row_stride_amended [255, 255, 255, 255, 0, 0, 0, 255, 0x18, 0x60] 14 1 0 3
    (by decide) (by decide) (by decide) (by decide) (by decide)

/-! ## Claim C4: palette byte order -/

theorem spec_palette_bgra_eq (payload : List Nat) (n : Nat) :
    spec_palette_bgra payload n = (List.range n).map fun i =>
      (byteAt payload (i * 4 + 2), byteAt payload (i * 4 + 1),
       byteAt payload (i * 4), byteAt payload (i * 4 + 3)) := by
  unfold spec_palette_bgra
  refine List.map_congr_left ?_
  intro i hi
  simp only
  rw [byteAt_take _ (by norm_num), byteAt_take _ (by norm_num), byteAt_take _ (by norm_num),
    byteAt_take _ (by norm_num), byteAt_drop, byteAt_drop, byteAt_drop, byteAt_drop,
    Nat.mul_comm 4 i]
  norm_num

theorem spec_palette_rgba_eq (payload : List Nat) (n : Nat) :
    spec_palette_rgba payload n = (List.range n).map fun i =>
      (byteAt payload (i * 4), byteAt payload (i * 4 + 1),
       byteAt payload (i * 4 + 2), byteAt payload (i * 4 + 3)) := by
  unfold spec_palette_rgba
  refine List.map_congr_left ?_
  intro i hi
  simp only
  rw [byteAt_take _ (by norm_num), byteAt_take _ (by norm_num), byteAt_take _ (by norm_num),
    byteAt_take _ (by norm_num), byteAt_drop, byteAt_drop, byteAt_drop, byteAt_drop,
    Nat.mul_comm 4 i]
  norm_num

/-- Claim C4 is false as stated: the Indexed1 decoder exposes a palette
entry whose payload bytes are 1, 2, 3, 4 as the raster color (1, 2, 3, 4),
reading the bytes directly as (R, G, B, A); the claimed (B, G, R, A)
decoding would expose (3, 2, 1, 4). -/
theorem palette_order_counterexample :
    raster_pixel (convert_indexed_1bit_to_png_fixed [1, 2, 3, 4, 0, 0, 0, 0, 0, 0] 2 1) 0 0
      = (1, 2, 3, 4)
    ∧ (spec_palette_bgra [1, 2, 3, 4, 0, 0, 0, 0, 0, 0] 2).getD 0 (9, 9, 9, 9) = (3, 2, 1, 4)
    ∧ ((1, 2, 3, 4) : Pixel) ≠ (3, 2, 1, 4) :=
  ⟨by decide, by decide, by decide⟩

/-- Claim C4 (amended): the Indexed2, Indexed4 and Indexed8 decoders read
each 4-byte palette entry in (B, G, R, A) order and expose it as
(R, G, B, A), as the specification says; the Indexed1 decoder instead
reads the entry bytes directly in (R, G, B, A) order. -/
theorem palette_order_amended (payload : List Nat) :
    indexed2_palette payload = spec_palette_bgra payload 4 ∧
    indexed4_palette payload = spec_palette_bgra payload 16 ∧
    indexed8_palette payload = spec_palette_bgra payload 256 ∧
    indexed1_palette payload = spec_palette_rgba payload 2 := by
  refine ⟨?_, ?_, ?_, ?_⟩
  · rw [spec_palette_bgra_eq]; rfl
  · rw [spec_palette_bgra_eq]; rfl
  · rw [spec_palette_bgra_eq]; rfl
  · rw [spec_palette_rgba_eq]
    simp [indexed1_palette, List.range_succ]

/-! ## Claim C5: truncated-bitmap behavior of the indexed decoders -/

/-- Claim C5 is false as stated: with a complete 16-byte Indexed2 palette
whose entry 0 decodes to (3, 2, 1, 4) and an empty bitmap region, the
decoder leaves pixel (0, 0) at the numpy zero value (0, 0, 0, 0) instead
of filling it with palette entry 0. -/
theorem indexed_truncation_counterexample :
    raster_pixel (convert_indexed_2bit_to_png
        [1, 2, 3, 4, 5, 6, 7, 8, 9, 10, 11, 12, 13, 14, 15, 16] 2 2) 0 0
      = (0, 0, 0, 0)
    ∧ (indexed2_palette [1, 2, 3, 4, 5, 6, 7, 8, 9, 10, 11, 12, 13, 14, 15, 16]).getD 0
        (9, 9, 9, 9) = (3, 2, 1, 4)
    ∧ ((0, 0, 0, 0) : Pixel) ≠ (3, 2, 1, 4) :=
  ⟨by decide, by decide, by decide⟩

/-- Claim C5 (amended): when the palette is complete but the bitmap region
is short, Indexed1 continues and fills every missing row with palette
entry 0; Indexed2 and Indexed8 continue but leave each pixel beyond the
available bitmap bytes at the transparent black value (0, 0, 0, 0), not
palette entry 0; Indexed4 has no bounds guard and aborts that decode with
an index error. -/
theorem indexed_truncation_amended (data : List Nat) (w h y x : Nat) :
    (8 ≤ data.length →
      convert_indexed_1bit_to_png_fixed data w h = .ok (indexed1_raster data) ∧
      ((data.drop 8).length ≤ y * 2 + 1 →
        indexed1_raster data y x = (indexed1_palette data).getD 0 (0, 0, 0, 0))) ∧
    (16 ≤ data.length →
      convert_indexed_2bit_to_png data w h = .ok (indexed2_raster data w) ∧
      ((data.drop 16).length ≤ (y * w + x) / 4 → indexed2_raster data w y x = (0, 0, 0, 0))) ∧
    (64 ≤ data.length → w * h ≠ 0 → (data.drop 64).length ≤ (w * h - 1) / 2 →
      convert_indexed_4bit_to_png data w h = .error .outOfBounds) ∧
    (1024 ≤ data.length →
      convert_indexed_8bit_to_png data w h = .ok (indexed8_raster data w) ∧
      ((data.drop 1024).length ≤ y * w + x → indexed8_raster data w y x = (0, 0, 0, 0))) := by
  refine ⟨fun h8 => ⟨?_, fun hshort => ?_⟩, fun h16 => ⟨?_, fun hshort => ?_⟩,
    fun h64 hne hshort => ?_, fun h1024 => ⟨?_, fun hshort => ?_⟩⟩
  · unfold convert_indexed_1bit_to_png_fixed
    rw [if_neg (by omega)]
  · simp only [indexed1_raster]
    rw [if_neg (by omega)]
  · unfold convert_indexed_2bit_to_png
    rw [if_neg (by omega)]
  · simp only [indexed2_raster]
    rw [if_neg (by omega)]
  · unfold convert_indexed_4bit_to_png
    rw [if_neg (by omega), if_pos ⟨hne, hshort⟩]
  · unfold convert_indexed_8bit_to_png
    rw [if_neg (by omega)]
  · simp only [indexed8_raster]
    rw [if_neg (by omega)]

set_option maxRecDepth 40000 in
theorem indexed_truncation_amended_witness :
    indexed1_raster (List.replicate 10 7) 1 0
      = (indexed1_palette (List.replicate 10 7)).getD 0 (0, 0, 0, 0)
    ∧ indexed2_raster (List.replicate 16 7) 2 0 0 = (0, 0, 0, 0)
    ∧ convert_indexed_4bit_to_png (List.replicate 64 7) 3 3 = .error .outOfBounds
    ∧ indexed8_raster (List.replicate 1024 7) 2 0 0 = (0, 0, 0, 0) :=
  ⟨((indexed_truncation_amended (List.replicate 10 7) 1 1 1 0).1 (by decide)).2 (by decide),
   ((indexed_truncation_amended (List.replicate 16 7) 2 1 0 0).2.1 (by decide)).2 (by decide),
   (indexed_truncation_amended (List.replicate 64 7) 3 3 0 0).2.2.1 (by decide) (by decide)
     (by decide),
   ((indexed_truncation_amended (List.replicate 1024 7) 2 1 0 0).2.2.2 (by decide)).2
     (by decide)⟩

/-! ## Claim C6: TrueColorAlpha truncation -/

/-- Claim C6 is false as stated: a 1 by 1 RGBA image with a 3-byte payload
does not decode to a raster with a transparent black pixel; the decoder
returns the truncation failure (Python returns False at src lines
1026-1028) and produces no raster at all. -/
theorem rgba_truncation_counterexample :
    convert_true_color_alpha_to_png_fixed [1, 2, 3] 1 1 = .error .truncated := by
  rfl

/-- Claim C6 (amended): for every RGBA payload shorter than
width * height * 4 bytes the TrueColorAlpha decoder logs the condition and
returns failure for that conversion; no raster and no transparent pixels
are produced. -/
theorem rgba_truncation_amended (image_data : List Nat) (width height : Nat)
    (h : image_data.length < width * height * 4) :
    convert_true_color_alpha_to_png_fixed image_data width height = .error .truncated := by
  unfold convert_true_color_alpha_to_png_fixed
  rw [if_pos h]

theorem rgba_truncation_amended_witness :
    convert_true_color_alpha_to_png_fixed [] 2 2 = .error .truncated :=
  rgba_truncation_amended [] 2 2 (by decide)

/-! ## Claim C7: sub-palette truncation -/

/-- Claim C7: a payload with fewer bytes than the palette alone (8, 16,
64, 1024 bytes for Indexed1, 2, 4, 8) makes each indexed decoder return
the truncation error at its early length guard; no read past the end of
the payload happens on that path and no exception is raised. -/
theorem subpalette_truncation (data : List Nat) (w h : Nat) :
    (data.length < 8 → convert_indexed_1bit_to_png_fixed data w h = .error .truncated) ∧
    (data.length < 16 → convert_indexed_2bit_to_png data w h = .error .truncated) ∧
    (data.length < 64 → convert_indexed_4bit_to_png data w h = .error .truncated) ∧
    (data.length < 1024 → convert_indexed_8bit_to_png data w h = .error .truncated) := by
  refine ⟨fun h1 => ?_, fun h2 => ?_, fun h4 => ?_, fun h8 => ?_⟩
  · unfold convert_indexed_1bit_to_png_fixed
    rw [if_pos h1]
  · unfold convert_indexed_2bit_to_png
    rw [if_pos h2]
  · unfold convert_indexed_4bit_to_png
    rw [if_pos h4]
  · unfold convert_indexed_8bit_to_png
    rw [if_pos h8]

theorem subpalette_truncation_witness :
    convert_indexed_1bit_to_png_fixed [1, 2, 3] 1 1 = .error .truncated
    ∧ convert_indexed_2bit_to_png [1, 2, 3] 1 1 = .error .truncated
    ∧ convert_indexed_4bit_to_png [1, 2, 3] 1 1 = .error .truncated
    ∧ convert_indexed_8bit_to_png [1, 2, 3] 1 1 = .error .truncated :=
  ⟨(subpalette_truncation [1, 2, 3] 1 1).1 (by decide),
   (subpalette_truncation [1, 2, 3] 1 1).2.1 (by decide),
   (subpalette_truncation [1, 2, 3] 1 1).2.2.1 (by decide),
   (subpalette_truncation [1, 2, 3] 1 1).2.2.2 (by decide)⟩

/-! ## Claim C8: the 14 by 14 fixture row -/

/-- Claim C8 is false as stated: in the 14 by 14 Indexed1 fixture with
palette white then black and a row whose bytes are 0x18 0x60 (binary
0001100001100000), pixel 2 of that row decodes to the background white
color, not the claimed foreground black: the set bits of the row word are
at MSB-first positions 3, 4, 9 and 10. -/
theorem fixture_row_counterexample :
    raster_pixel (convert_indexed_1bit_to_png_fixed
        ([255, 255, 255, 255, 0, 0, 0, 255, 0x18, 0x60] ++ List.replicate 26 0) 14 14) 0 2
      = (255, 255, 255, 255)
    ∧ ((255, 255, 255, 255) : Pixel) ≠ (0, 0, 0, 255) :=
  ⟨by decide, by decide⟩

/-- Claim C8 (amended): in the 14 by 14 Indexed1 fixture with palette
[(255,255,255,255), (0,0,0,255)] and a row whose two bytes are 0x18 0x60,
pixels 3, 4, 9 and 10 of that row decode to the foreground black color and
all other pixels of the row to the background white color, taking the 14
leftmost bits MSB-first. -/
theorem fixture_row_amended :
    (List.range 14).map (fun x => raster_pixel (convert_indexed_1bit_to_png_fixed
        ([255, 255, 255, 255, 0, 0, 0, 255, 0x18, 0x60] ++ List.replicate 26 0) 14 14) 0 x)
      = [(255, 255, 255, 255), (255, 255, 255, 255), (255, 255, 255, 255), (0, 0, 0, 255),
         (0, 0, 0, 255), (255, 255, 255, 255), (255, 255, 255, 255), (255, 255, 255, 255),
         (255, 255, 255, 255), (0, 0, 0, 255), (0, 0, 0, 255), (255, 255, 255, 255),
         (255, 255, 255, 255), (255, 255, 255, 255)] := by
  decide

/-! ## Claim C2: format auto-detection and dispatch -/

/-- The pixel-format codecs a container can be dispatched to. -/
inductive Codec where
  | indexed1
  | indexed2
  | indexed4
  | indexed8
  | trueColor
  | trueColorAlpha
  deriving DecidableEq

/-- The auto-detection and dispatch of convert_lvgl_binary_to_png (src
lines 350-377): an exact payload-length match for RGB565, RGB888 or RGBA
overrides the declared format, and the dispatch then tests
actual_format == 7 or color_format == 7 first, followed by the
actual_format chain, with the RGB565 decoder as the format of last
resort. -/
def select_codec (color_format data_len width height : Nat) : Codec :=
  let actual_format :=
    if data_len = width * height * 2 then 4
    else if data_len = width * height * 3 then 4
    else if data_len = width * height * 4 then 5
    else color_format
  if actual_format = 7 ∨ color_format = 7 then .indexed1
  else if actual_format = 8 then .indexed2
  else if actual_format = 9 then .indexed4
  else if actual_format = 10 then .indexed8
  else if actual_format = 4 then .trueColor
  else if actual_format = 5 then .trueColorAlpha
  else .trueColor

/-- The decode path of convert_lvgl_binary_to_png (src lines 318-377):
parse the header, split off the payload after byte 4, then select the
codec from the declared format and the payload length. -/
def convert_lvgl_binary_to_png_codec (binary_data : List Nat) : Option Codec :=
  match parse_lvgl_binary_header binary_data with
  | none => none
  | some (color_format, width, height) =>
      some (select_codec color_format (binary_data.length - 4) width height)

/-- Claim C2 is false as stated: a container whose header declares
Indexed1 (code 7) with width 2 and height 2 and whose payload is exactly
2 * 2 * 2 = 8 bytes is dispatched to the Indexed1 codec, not the
TrueColor codec, because the dispatch tests color_format == 7 as well as
actual_format == 7 (src line 363). -/
theorem resolver_indexed1_counterexample :
    convert_lvgl_binary_to_png_codec
        [0x07, 0x08, 0x40, 0x00, 0, 0, 0, 0, 0, 0, 0, 0] = some Codec.indexed1
    ∧ Codec.indexed1 ≠ Codec.trueColor :=
  ⟨by decide, by decide⟩

/-- Claim C2 (amended): a header that declares Indexed1 always selects the
Indexed1 codec, whatever the payload length; for any other declared
format, a payload length of exactly width * height * 2 re-selects the
TrueColor codec. -/
theorem resolver_dispatch_amended (color_format data_len width height : Nat) :
    (color_format = 7 →
      select_codec color_format data_len width height = Codec.indexed1) ∧
    (color_format ≠ 7 → data_len = width * height * 2 →
      select_codec color_format data_len width height = Codec.trueColor) := by
  constructor
  · intro h7
    unfold select_codec
    simp [h7]
  · intro h7 hlen
    unfold select_codec
    simp [h7, hlen]

theorem resolver_dispatch_amended_witness :
    select_codec 7 8 2 2 = Codec.indexed1 ∧ select_codec 8 8 2 2 = Codec.trueColor :=
  ⟨(resolver_dispatch_amended 7 8 2 2).1 rfl,
   (resolver_dispatch_amended 8 8 2 2).2 (by decide) rfl⟩

/-! ## Claim C10: precedence of the ZMK multi-icon layout

The regular-expression scanning of the source text is textual glue; its
observable output is modelled by the FileContent record below.  The
pairing, suffix stripping and layout precedence, which are the logic of
extract_zmk_icons_from_file and convert_image_array_file_to_bin, are
embedded faithfully. -/

/-- Python str.replace: replaces every non-overlapping occurrence of the
pattern, scanning left to right.  Written with structural fuel so the
function evaluates inside the kernel; fuel equal to the string length
is always sufficient because every step either consumes a character or a
nonempty pattern occurrence. -/
def replace_all_aux (pattern replacement : List Char) : Nat → List Char → List Char
  | _, [] => []
  | 0, s => s
  | fuel + 1, c :: rest =>
      if pattern.isPrefixOf (c :: rest) ∧ pattern ≠ [] then
        replacement ++ replace_all_aux pattern replacement fuel ((c :: rest).drop pattern.length)
      else c :: replace_all_aux pattern replacement fuel rest

/-- Python s.replace(pattern, replacement). -/
def python_replace (s pattern replacement : String) : String :=
  ⟨replace_all_aux pattern.data replacement.data s.data.length s.data⟩

/-- One named byte array found by the array regex of
extract_zmk_icons_from_file (src line 52), uint8_t NAME_map[] = ...: the
capture without the _map suffix, and the parsed hex bytes.  The source
records an array only when at least one hex byte was found (src line 65). -/
structure ZmkArray where
  name : String
  bytes : List Nat
  deriving DecidableEq

/-- One image descriptor found by the descriptor regex (src line 55),
const lv_img_dsc_t NAME_icon = ...: the captured name without the _icon
suffix, the numeric .w and .h captures, the .cf token and the .data
reference.  Descriptors missing one of these fields are dropped by the
source (src line 80), so every field is present here. -/
structure ZmkDescriptor where
  name : String
  w : Nat
  h : Nat
  cf : String
  dataRef : String
  deriving DecidableEq

/-- The captures of the legacy single-icon regexes of
convert_image_array_file_to_bin (src lines 112-172): the optional
descriptor captures, the hex-decoded byte-swapped conditional block
(preferred when present, src lines 155-164) and the hex-decoded first
braced block (src lines 166-172).  Numeric captures are modelled already
parsed. -/
structure LegacyFields where
  imgName : Option String
  imgCf : Option String
  imgW : Option Nat
  imgH : Option Nat
  dataSize : Option String
  cArraySwapped : Option (List Nat)
  cArrayPlain : Option (List Nat)
  deriving DecidableEq

/-- What the regular-expression layer observes in one source file. -/
structure FileContent where
  arrays : List ZmkArray
  descriptors : List ZmkDescriptor
  legacy : LegacyFields
  deriving DecidableEq

/-- extract_zmk_icons_from_file (src lines 45-93): for each descriptor in
order, strip the _map and _icon suffixes from its .data reference and pair
it with the array of that name; descriptors without a matching array are
skipped.  The Python dict keyed by icon name is modelled as the list of
(name, icon) pairs in descriptor order. -/
def extract_zmk_icons_from_file (fc : FileContent) : List (String × IconData) :=
  fc.descriptors.foldl
    (fun icons d =>
      let array_name := python_replace (python_replace d.dataRef "_map" "") "_icon" ""
      match fc.arrays.find? (fun a => a.name = array_name) with
      | some a => icons ++ [(d.name, ⟨d.name, d.w, d.h, d.cf, a.bytes⟩)]
      | none => icons)
    []

/-- The result of convert_image_array_file_to_bin: the ZMK icon
collection, or the single legacy entry with its name, format token,
dimensions, resolved data_size and header-plus-data bytes. -/
inductive ConvertResult where
  | zmk (icons : List (String × IconData))
  | legacy (name : String) (format : String) (width height data_size : Nat)
      (binary : List Nat)
  deriving DecidableEq

/-- The legacy format token chain (src lines 188-203). -/
def legacy_cf_val (img_cf : String) : Option Nat :=
  if img_cf = "LV_IMG_CF_TRUE_COLOR_ALPHA" then some 5
  else if img_cf = "LV_IMG_CF_TRUE_COLOR" then some 4
  else if img_cf = "LV_IMG_CF_INDEXED_1BIT" then some 7
  else if img_cf = "LV_IMG_CF_INDEXED_2BIT" then some 8
  else if img_cf = "LV_IMG_CF_INDEXED_4BIT" then some 9
  else if img_cf = "LV_IMG_CF_INDEXED_8BIT" then some 10
  else none

/-- convert_image_array_file_to_bin (src lines 96-252): the ZMK
extraction runs first and its result is returned unchanged whenever it is
nonempty (src lines 105-108); only otherwise does the legacy path run:
prefer the byte-swapped block, else the first braced array; map the
format token (unsupported tokens fail); resolve data_size, where a
sizeof expression and an unparsable capture both resolve to the decoded
array length (src lines 205-216); then pack the header and prepend it.
A file where no array literal matches yields none (src lines 174-176),
and a legacy descriptor missing the cf, w or h capture makes the Python
code fail for that file, also modelled as none. -/
def convert_image_array_file_to_bin (fc : FileContent) : Option ConvertResult :=
  let icons := extract_zmk_icons_from_file fc
  if icons ≠ [] then some (.zmk icons)
  else
    let c_array? := match fc.legacy.cArraySwapped with
      | some l => some l
      | none => fc.legacy.cArrayPlain
    match c_array?, fc.legacy.imgCf, fc.legacy.imgW, fc.legacy.imgH with
    | some c_array, some img_cf, some w, some h =>
        match legacy_cf_val img_cf with
        | none => none
        | some cf_val =>
            let data_size_str := fc.legacy.dataSize.getD "0"
            let actual_data_size :=
              if data_size_str.startsWith "sizeof(" then c_array.length
              else match data_size_str.toNat? with
                | some n => n
                | none => c_array.length
            some (.legacy (fc.legacy.imgName.getD "unknown") img_cf w h actual_data_size
              (header_bytes (lv_header_32bit cf_val w h) ++ c_array))
    | _, _, _, _ => none

/-- Claim C10: whenever the ZMK multi-icon extraction finds at least one
matching (array, descriptor) pair, convert_image_array_file_to_bin
returns exactly those icons and the legacy single-icon path is never
applied, even when legacy captures are present in the same file. -/
theorem zmk_precedence (fc : FileContent)
    (hne : extract_zmk_icons_from_file fc ≠ []) :
    convert_image_array_file_to_bin fc
      = some (ConvertResult.zmk (extract_zmk_icons_from_file fc)) := by
  simp only [convert_image_array_file_to_bin]
  rw [if_pos hne]

theorem zmk_precedence_witness :
    convert_image_array_file_to_bin
      ⟨[⟨"control", [1, 2, 3, 4]⟩],
       [⟨"control", 14, 14, "LV_IMG_CF_INDEXED_1BIT", "control_map"⟩],
       ⟨some "legacy_item", some "LV_IMG_CF_TRUE_COLOR", some 4, some 4, some "32",
        none, some [9, 9]⟩⟩
      = some (ConvertResult.zmk
          [("control", ⟨"control", 14, 14, "LV_IMG_CF_INDEXED_1BIT", [1, 2, 3, 4]⟩)]) :=
  zmk_precedence _ (by decide)
